import Mathlib

/-!
Verification of the prometheus-collectors collection harness.

This file gives a shallow embedding of the harness code shared by the
collectors (`prometheus_collectors/__init__.py` and its push-based sibling
`rf_collectors/__init__.py`) together with the two stateful collector
specializations the specification singles out: the reconnecting stream
consumer of the GPS collector (`gps.py`) and the adaptive spread sampler of
the TLS certificate checker (`sslchecker.py`).  Field-mapping facts are
embedded from `ambientweather.py` and `things.py`.

Machine floats are modelled as rationals; random draws are modelled as
explicit inputs (a uniform draw in the unit interval becomes an explicit
rational argument).  Exceptions are modelled by explicit flags or `Except`.
-/

namespace PromCollectors

/-- The four mutually exclusive delivery modes of
`BaseMetrics.parse_args` (`prometheus_collectors/__init__.py`, lines 51-63). -/
inductive Mode
  | httpDaemon
  | promDaemon
  | write
  | dump
deriving DecidableEq

/-- Observable output actions of one pass of `BaseMetrics.main_loop`
(`prometheus_collectors/__init__.py`, lines 175-191). -/
inductive Event
  | wroteProm
  | dumpedStdout
  | slept (duration : ℚ)
deriving DecidableEq

/-- How `BaseMetrics.main_loop` can leave its `while True` loop. -/
inductive LoopExit
  | raisedExc
  | returnedNormally
  | ranOut
deriving DecidableEq

/-- Per-cycle inputs to one pass of the driver loop: whether the
collector's `collect_metrics` raises, and the uniform draw in the unit
interval consumed by `random.uniform` for the jittered sleep. -/
structure CycleInput where
  collectRaises : Bool
  u : ℚ
deriving DecidableEq

/-- `random.uniform(a, b)` modelled as `a + (b - a) * u` for a uniform
draw `u` in the unit interval. -/
def uniformDraw (a b u : ℚ) : ℚ := a + (b - a) * u

/-- The jittered sleep computed by `BaseMetrics.main_loop`
(`prometheus_collectors/__init__.py`, lines 186-189):
`random.uniform(interval * (1 - randomize/100), interval * (1 + randomize/100))`.
The push-based variant (`rf_collectors/__init__.py`, lines 168-171) computes
the identical expression. -/
def sleepFor (interval randomize u : ℚ) : ℚ :=
  uniformDraw (interval * (1 - randomize / 100)) (interval * (1 + randomize / 100)) u

/-- Whether `BaseMetrics.main` creates the `collection_errors` counter:
it does so only under `self.args.http_daemon`
(`prometheus_collectors/__init__.py`, lines 125-138); in every other mode
the class attribute stays `None`. -/
def collectionErrorsCreated : Mode → Bool
  | Mode.httpDaemon => true
  | _ => false

/-- Result of one pass of the body of `BaseMetrics.main_loop`:
the output events, the number of `collection_errors.inc()` calls, and
whether the pass leaves the loop (by raising or by `return`). -/
structure CycleResult where
  events : List Event
  errInc : Nat
  exit : Option LoopExit
deriving DecidableEq

/-- One pass of the body of `BaseMetrics.main_loop`
(`prometheus_collectors/__init__.py`, lines 159-191), translated branch by
branch: an exception from `collect_metrics` is re-raised when `--write` or
`--dump` is set, otherwise logged and counted iff the `collection_errors`
instrument exists; then the publish branch (`--prom-daemon` or `--write`
write the .prom file, `--dump` prints), the one-shot `return`, and the
jittered daemon sleep. -/
def cycleStep (interval randomize : ℚ) (m : Mode) (c : CycleInput) : CycleResult :=
  if c.collectRaises = true ∧ (m = Mode.write ∨ m = Mode.dump) then
    ⟨[], 0, some LoopExit.raisedExc⟩
  else
    let errInc : Nat :=
      if c.collectRaises = true ∧ collectionErrorsCreated m = true then 1 else 0
    let pub : List Event :=
      if m = Mode.promDaemon ∨ m = Mode.write then [Event.wroteProm]
      else if m = Mode.dump then [Event.dumpedStdout]
      else []
    if m = Mode.write ∨ m = Mode.dump then
      ⟨pub, errInc, some LoopExit.returnedNormally⟩
    else if m = Mode.httpDaemon ∨ m = Mode.promDaemon then
      ⟨pub ++ [Event.slept (sleepFor interval randomize c.u)], errInc, none⟩
    else
      ⟨pub, errInc, none⟩

/-- `BaseMetrics.main_loop` run on a finite prefix of per-cycle inputs:
accumulates events and error-counter increments until the loop raises,
returns, or the supplied inputs run out (`LoopExit.ranOut` standing for a
daemon loop that is still running). -/
def runLoop (interval randomize : ℚ) (m : Mode) : List CycleInput → List Event × Nat × LoopExit
  | [] => ([], 0, LoopExit.ranOut)
  | c :: rest =>
    let r := cycleStep interval randomize m c
    match r.exit with
    | some e => (r.events, r.errInc, e)
    | none =>
      let rr := runLoop interval randomize m rest
      (r.events ++ rr.1, r.errInc + rr.2.1, rr.2.2)

/-! ### GPS reconnecting stream consumer (`gps.py`) -/

/-- Outcome of one attempt of `Metrics.main_loop_connection`
(`prometheus_collectors/gps.py`, lines 171-179; identical in
`rf_collectors/gps.py`, lines 173-181): the connect step may raise
`ConnectionRefusedError` or another exception, the bounded read may return
an empty chunk (raised as `ValueError("gpsd EOF")`), or a data chunk is
returned (whose processing by `process_message` may itself raise, tracked by
the flag). -/
inductive StreamEvent
  | connRefused
  | connError
  | eofRead
  | dataChunk (processRaises : Bool)
deriving DecidableEq

/-- Observable effects of one pass of the GPS `Metrics.main_loop` body. -/
structure GpsIterResult where
  errInc : Nat
  sockClosed : Bool
  sockCleared : Bool
  sleptSeconds : Option ℚ
  raisedOut : Bool
deriving DecidableEq

/-- One pass of the GPS `Metrics.main_loop` body in
`prometheus_collectors/gps.py`, lines 185-202: on any exception from
`main_loop_connection`, increment `collection_errors`, close the socket,
set it to `None`, sleep one second and `continue`; on a data chunk, run
`process_message` under the duration timer, counting (but not re-raising)
any processing exception. -/
def promGpsIter : StreamEvent → GpsIterResult
  | StreamEvent.dataChunk processRaises =>
    if processRaises then ⟨1, false, false, none, false⟩
    else ⟨0, false, false, none, false⟩
  | _ => ⟨1, true, true, some 1, false⟩

/-- The instance attributes ever bound on the `rf_collectors` GPS collector
object: the class attributes of `rf_collectors.BaseMetrics` (lines 33-41)
and of `rf_collectors.gps.Metrics` (lines 21-25), plus every attribute
assigned in `BaseMetrics.main`/`create_instrument` (lines 103-152, 185) and
in `gps.Metrics.setup` (lines 27-31).  `requests`/`r_session` are included
even though the GPS collector's `needs_requests` is false.  No statement in
the `rf_collectors` package ever assigns an attribute named
`collection_errors` (its only occurrence is the read at `gps.py` line 191). -/
def rfGpsInstanceAttrs : List String :=
  ["interval", "needs_config", "needs_requests", "needs_periodic_export",
   "args", "config", "instruments", "logger", "exporter", "metric_reader",
   "meter", "requests", "r_session", "gpsd_host", "gpsd_port", "sock",
   "metrics_defs"]

/-- One pass of the GPS `Metrics.main_loop` body in `rf_collectors/gps.py`,
lines 184-203.  The exception handler's first statement is
`self.collection_errors.inc()` (line 191); when the attribute is not among
the object's bound attributes, Python raises `AttributeError` there, so the
handler aborts before the close/clear/sleep statements and the exception
escapes the loop. -/
def rfGpsIter : StreamEvent → GpsIterResult
  | StreamEvent.dataChunk processRaises =>
    if processRaises then ⟨1, false, false, none, false⟩
    else ⟨0, false, false, none, false⟩
  | _ =>
    if rfGpsInstanceAttrs.contains "collection_errors" then
      ⟨1, true, true, some 1, false⟩
    else ⟨0, false, false, none, true⟩

/-- `Metrics.main_loop` of `prometheus_collectors/gps.py`, lines 181-202:
any mode other than `--http-daemon` raises
`RuntimeError("Only --http-daemon is supported here")` before the
`while True` loop; otherwise the loop consumes the stream events. -/
def gpsMainLoop (m : Mode) (evs : List StreamEvent) : Except String (List GpsIterResult) :=
  if ¬(m = Mode.httpDaemon) then
    Except.error "Only --http-daemon is supported here"
  else
    Except.ok (evs.map promGpsIter)

/-! ### TLS certificate checker: adaptive spread sampler (`sslchecker.py`) -/

/-- One entry of the `hosts` list of the sslchecker configuration: a
hostname and an optional port (`collect_metrics` defaults a missing port to
443, `prometheus_collectors/sslchecker.py`, lines 56-58). -/
structure SslHost where
  hostname : String
  port : Option Nat
deriving DecidableEq

/-- The effective port of a host: `if "port" not in host: host["port"] = 443`. -/
def portOf (h : SslHost) : Nat := h.port.getD 443

/-- The sampling probability computed by `Metrics.collect_metrics`
(`prometheus_collectors/sslchecker.py`, line 44; identically
`rf_collectors/sslchecker.py`, line 73):
`chance = 1.0 / (self.spread_interval / self.interval)`. -/
def chance (spread_interval interval : ℚ) : ℚ := 1 / (spread_interval / interval)

/-- The host subset built when `full_check_complete` is set
(`prometheus_collectors/sslchecker.py`, lines 43-47): each host is paired
with its `random.random()` draw and appended iff the draw is below
`chance`. -/
def spreadSelect (spread_interval interval : ℚ)
    (pairs : List (SslHost × ℚ)) : List SslHost :=
  pairs.filterMap fun p =>
    if p.2 < chance spread_interval interval then some p.1 else none

/-- The hosts visited by one `collect_metrics` cycle
(`prometheus_collectors/sslchecker.py`, lines 41-51): all configured hosts
while `full_check_complete` is false, otherwise the random subset. -/
def cycleHosts (full_check_complete : Bool) (spread_interval interval : ℚ)
    (pairs : List (SslHost × ℚ)) : List SslHost :=
  if full_check_complete then spreadSelect spread_interval interval pairs
  else pairs.map Prod.fst

/-- The `full_check_complete` flag after one `collect_metrics` cycle
(`prometheus_collectors/sslchecker.py`, lines 100-101): set after the first
cycle and never cleared. -/
def nextFullCheckComplete (_full_check_complete : Bool) : Bool := true

/-! ### TLS certificate checker: per-target publication (`sslchecker.py`) -/

/-- The label dictionary used by the sslchecker's metric calls: the base
labels `server_hostname`/`server_port` (line 59) possibly extended by the
`certificate_cn`/`issuer_cn` entries (lines 81-84). -/
structure SslLabels where
  server_hostname : String
  server_port : Nat
  extra : List (String × String)
deriving DecidableEq

/-- A registry time series of the sslchecker is identified by the metric key
passed to `self.metric` together with its label dictionary. -/
abbrev SslMetricKey := String × SslLabels

/-- The sslchecker's view of the gauge registry: each (metric, labels) time
series holds its most recently set value, or none if never set.  Gauges of
`prometheus_client` keep their last value between collection cycles. -/
def SslRegistry := SslMetricKey → Option ℚ

/-- A gauge `set` call: overwrite one time series, leave all others. -/
def regSet (reg : SslRegistry) (k : SslMetricKey) (v : ℚ) : SslRegistry :=
  fun k2 => if k2 = k then some v else reg k2

/-- `base_labels = {"server_hostname": hostname, "server_port": port}`
(`prometheus_collectors/sslchecker.py`, line 59). -/
def baseLabels (h : SslHost) : SslLabels := ⟨h.hostname, portOf h, []⟩

/-- The tuple returned by `Metrics.check_host` (lines 148-155), restricted
to the fields `collect_metrics` publishes; timestamps are already converted
to seconds since epoch, the serial number is kept as a metric value. -/
structure CertResult where
  serial : ℚ
  notBefore : ℚ
  notAfter : ℚ
  subjectCN : String
  issuerCN : String
deriving DecidableEq

/-- The extended label dictionary of lines 81-84: base labels plus
`certificate_cn`/`issuer_cn` unless listed in `skip_labels`. -/
def fullLabels (skip_labels : List String) (h : SslHost) (res : CertResult) : SslLabels :=
  ⟨h.hostname, portOf h,
    (if skip_labels.contains "certificate_cn" then []
     else [("certificate_cn", res.subjectCN)]) ++
    (if skip_labels.contains "issuer_cn" then []
     else [("issuer_cn", res.issuerCN)])⟩

/-- Outcome of `check_host` for one visited host: an exception
(`VisitResult.failed`) or a certificate result together with the value of
`time.time()` at publication. -/
inductive VisitResult
  | failed
  | ok (res : CertResult) (now : ℚ)
deriving DecidableEq

/-- The gauge updates performed for one visited host by the loop body of
`collect_metrics` (`prometheus_collectors/sslchecker.py`, lines 54-98): a
`check_host` exception sets only `retrieval_success_boolean` to 0 and
continues; a success sets `retrieval_time_seconds`,
`retrieval_success_boolean` (to 1), `serial_number`, `not_before_seconds`
and `not_after_seconds`, in source order. -/
def processHost (skip_labels : List String) (reg : SslRegistry) (h : SslHost) :
    VisitResult → SslRegistry
  | VisitResult.failed =>
    regSet reg ("retrieval_success_boolean", baseLabels h) 0
  | VisitResult.ok res now =>
    let r1 := regSet reg ("retrieval_time_seconds", baseLabels h) now
    let r2 := regSet r1 ("retrieval_success_boolean", baseLabels h) 1
    let r3 := regSet r2 ("serial_number", fullLabels skip_labels h res) res.serial
    let r4 := regSet r3 ("not_before_seconds", fullLabels skip_labels h res) res.notBefore
    regSet r4 ("not_after_seconds", fullLabels skip_labels h res) res.notAfter

/-- One full `collect_metrics` pass over the selected hosts with their
visit outcomes, folding the per-host updates over the registry. -/
def runSslCycle (skip_labels : List String) :
    SslRegistry → List (SslHost × VisitResult) → SslRegistry
  | reg, [] => reg
  | reg, (h, o) :: rest => runSslCycle skip_labels (processHost skip_labels reg h o) rest

/-! ### Instrument cache and label coercion (`BaseMetrics.metric`) -/

/-- A Python value usable as a label value in the collectors' label
dictionaries (strings and integers, e.g. a port number). -/
inductive PyVal
  | str (v : String)
  | int (n : Int)
deriving DecidableEq

/-- Python `str()` on a label value. -/
def pyStr : PyVal → String
  | PyVal.str v => v
  | PyVal.int n => toString n

/-- `labels.get(label_name, "")`: lookup in a Python dict modelled as an
association list with unique keys. -/
def dictGet (d : List (String × PyVal)) (k : String) : Option PyVal :=
  (d.find? fun p => p.1 == k).map Prod.snd

/-- Insertion into a sorted list of strings, ascending. -/
def insertSorted (s : String) : List String → List String
  | [] => [s]
  | t :: rest => if s < t then s :: t :: rest else t :: insertSorted s rest

/-- Python `sorted()` on a list of label keys. -/
def sortStrings : List String → List String
  | [] => []
  | s :: rest => insertSorted s (sortStrings rest)

/-- `str(labels.get(label_name, ""))` for each declared label name, in
declaration order (`prometheus_collectors/__init__.py`, lines 202-204). -/
def labelValues (labelnames : List String) (labels : List (String × PyVal)) : List String :=
  labelnames.map fun n => pyStr ((dictGet labels n).getD (PyVal.str ""))

/-- `BaseMetrics.metric` (`prometheus_collectors/__init__.py`, lines
193-205) restricted to its instrument-cache and label behaviour: on first
use of `key` the instrument is created with label names
`sorted(labels.keys())`; every call then builds the label-value tuple from
the created instrument's `_labelnames`.  Returns the updated cache and the
label values passed to `metric.labels`. -/
def metricCall (cache : List (String × List String)) (key : String)
    (labels : List (String × PyVal)) : List (String × List String) × List String :=
  match cache.find? fun p => p.1 == key with
  | some entry => (cache, labelValues entry.2 labels)
  | none =>
    let names := sortStrings (labels.map Prod.fst)
    (cache ++ [(key, names)], labelValues names labels)

/-! ### Field maps: `ambientweather.py` and `things.py` -/

/-- `Metrics.sensor_map` of `prometheus_collectors/ambientweather.py`,
lines 51-77: upstream field name to (metric key, sensor label). -/
def sensor_map : List (String × String × String) :=
  [("baromabsin", "barometer_absolute_in", "outdoor"),
   ("baromrelin", "barometer_relative_in", "outdoor"),
   ("dailyrainin", "daily_rain_in", "outdoor"),
   ("dewPoint", "dew_point_f", "outdoor"),
   ("dewPointin", "dew_point_f", "indoor"),
   ("eventrainin", "event_rain_in", "outdoor"),
   ("feelsLike", "feels_like_f", "outdoor"),
   ("feelsLikein", "feels_like_f", "indoor"),
   ("hourlyrainin", "hourly_rain_in", "outdoor"),
   ("humidity", "humidity_percent", "outdoor"),
   ("humidityin", "humidity_percent", "indoor"),
   ("maxdailygust", "max_daily_gust_mph", "outdoor"),
   ("monthlyrainin", "monthly_rain_in", "outdoor"),
   ("solarradiation", "solar_radiation_wm2", "outdoor"),
   ("temp1f", "temperature_f", "pool"),
   ("tempf", "temperature_f", "outdoor"),
   ("tempinf", "temperature_f", "indoor"),
   ("uv", "uv_index", "outdoor"),
   ("weeklyrainin", "weekly_rain_in", "outdoor"),
   ("winddir", "wind_direction", "outdoor"),
   ("winddir_avg10m", "wind_direction_avg10m", "outdoor"),
   ("windgustmph", "wind_gust_mph", "outdoor"),
   ("windspdmph_avg10m", "wind_speed_avg10m_mph", "outdoor"),
   ("windspeedmph", "wind_speed_mph", "outdoor"),
   ("yearlyrainin", "yearly_rain_in", "outdoor")]

/-- Lookup of an upstream field in `sensor_map` (`k in self.sensor_map`,
`self.sensor_map[k]`). -/
def sensorLookup (k : String) : Option (String × String) :=
  (sensor_map.find? fun p => p.1 == k).map Prod.snd

/-- `Metrics.parse_metrics` of `prometheus_collectors/ambientweather.py`,
lines 112-120: each upstream field present in `sensor_map` is published
under its mapped metric key with the sensor label and the upstream value
unchanged; unknown fields are skipped.  Numeric upstream values are
modelled as rationals. -/
def parse_metrics (data : List (String × ℚ)) : List (String × String × ℚ) :=
  data.filterMap fun kv =>
    (sensorLookup kv.1).map fun ms => (ms.1, ms.2, kv.2)

/-- The numeric rows of the metric table in `Metrics.process_thing`
(`prometheus_collectors/things.py`, lines 75-86): metric key, attribute
key, and value conversion.  `is_f` is `hub.get("temp_fahrenheit", False)`;
the temperature row converts with `(float(x) - 32) / 1.8` when it is set.
The `switch_on` row (a string comparison) and the timestamp/counter
updates of lines 102-108 involve no numeric conversion and are outside the
claims over this table. -/
def thingsNumericDefs (is_f : Bool) : List (String × String × (ℚ → ℚ)) :=
  [("temperature_degrees_celsius", "temperature",
    fun x => if is_f then (x - 32) / (9 / 5 : ℚ) else x),
   ("battery_percent", "battery", fun x => x),
   ("illuminance_lux", "illuminance", fun x => x),
   ("humidity_percent", "humidity", fun x => x),
   ("light_level_percent", "level", fun x => x)]

/-- `Metrics.process_thing` over the numeric attribute rows: for each row
whose attribute is present, publish the converted value under the row's
metric key (`prometheus_collectors/things.py`, lines 87-100). -/
def processThingNumeric (is_f : Bool) (attrs : List (String × ℚ)) : List (String × ℚ) :=
  (thingsNumericDefs is_f).filterMap fun d =>
    (attrs.find? fun p => p.1 == d.2.1).map fun p => (d.1, d.2.2 p.2)

/-! ### Helper lemmas -/

/-- A gauge `set` leaves every other time series unchanged. -/
theorem regSet_ne (reg : SslRegistry) (k k2 : SslMetricKey) (v : ℚ) (h : k2 ≠ k) :
    regSet reg k v k2 = reg k2 := by
  simp [regSet, h]

/-- Processing one visited host only touches time series labelled with that
host's hostname and effective port. -/
theorem processHost_frame (skip_labels : List String) (reg : SslRegistry) (h : SslHost)
    (o : VisitResult) (name : String) (ls : SslLabels)
    (hne : ¬(h.hostname = ls.server_hostname ∧ portOf h = ls.server_port)) :
    processHost skip_labels reg h o (name, ls) = reg (name, ls) := by
  have hbase : ∀ nm : String, ((name, ls) : SslMetricKey) ≠ (nm, baseLabels h) := by
    intro nm e
    have h2 : ls = baseLabels h := congrArg Prod.snd e
    exact hne ⟨(congrArg SslLabels.server_hostname h2).symm,
      (congrArg SslLabels.server_port h2).symm⟩
  have hfull : ∀ (nm : String) (res : CertResult),
      ((name, ls) : SslMetricKey) ≠ (nm, fullLabels skip_labels h res) := by
    intro nm res e
    have h2 : ls = fullLabels skip_labels h res := congrArg Prod.snd e
    exact hne ⟨(congrArg SslLabels.server_hostname h2).symm,
      (congrArg SslLabels.server_port h2).symm⟩
  cases o with
  | failed =>
    exact regSet_ne _ _ _ _ (hbase _)
  | ok res now =>
    simp only [processHost]
    rw [regSet_ne _ _ _ _ (hfull "not_after_seconds" res),
      regSet_ne _ _ _ _ (hfull "not_before_seconds" res),
      regSet_ne _ _ _ _ (hfull "serial_number" res),
      regSet_ne _ _ _ _ (hbase "retrieval_success_boolean"),
      regSet_ne _ _ _ _ (hbase "retrieval_time_seconds")]

/-- A full sslchecker cycle leaves every time series of an unvisited
target unchanged. -/
theorem runSslCycle_frame (skip_labels : List String)
    (visits : List (SslHost × VisitResult)) (hn : String) (p : Nat)
    (hv : ∀ pr ∈ visits, ¬(pr.1.hostname = hn ∧ portOf pr.1 = p)) :
    ∀ (reg : SslRegistry) (name : String) (ls : SslLabels),
      ls.server_hostname = hn → ls.server_port = p →
      runSslCycle skip_labels reg visits (name, ls) = reg (name, ls) := by
  induction visits with
  | nil =>
    intro reg name ls _ _
    rfl
  | cons pr rest ih =>
    obtain ⟨hh, oo⟩ := pr
    intro reg name ls h1 h2
    have hrest : ∀ pr ∈ rest, ¬(pr.1.hostname = hn ∧ portOf pr.1 = p) :=
      fun q hq => hv q (List.mem_cons_of_mem _ hq)
    have hstep : processHost skip_labels reg hh oo (name, ls) = reg (name, ls) := by
      apply processHost_frame
      intro hc
      exact hv (hh, oo) (List.mem_cons_self _ _) ⟨hc.1.trans h1, hc.2.trans h2⟩
    calc runSslCycle skip_labels reg ((hh, oo) :: rest) (name, ls)
        = runSslCycle skip_labels (processHost skip_labels reg hh oo) rest (name, ls) := rfl
      _ = processHost skip_labels reg hh oo (name, ls) := ih hrest _ name ls h1 h2
      _ = reg (name, ls) := hstep

/-! ### Claim theorems -/

/-- C1: in the one-shot modes (`--write`, `--dump`), a raising
`collect_metrics` is re-raised out of `main_loop` before any output is
produced (no file write, no stdout dump); a succeeding `collect_metrics`
yields exactly one cycle, exactly one write or dump, and a normal return
from the loop. -/
theorem one_shot_error_propagation (interval randomize : ℚ) (m : Mode) (c : CycleInput)
    (rest : List CycleInput) (hm : m = Mode.write ∨ m = Mode.dump) :
    (c.collectRaises = true →
      runLoop interval randomize m (c :: rest) = ([], 0, LoopExit.raisedExc)) ∧
    (c.collectRaises = false →
      runLoop interval randomize m (c :: rest) =
        ((if m = Mode.write then [Event.wroteProm] else [Event.dumpedStdout]), 0,
          LoopExit.returnedNormally)) := by
  rcases hm with h | h <;> subst h <;>
    refine ⟨fun hc => ?_, fun hc => ?_⟩ <;>
    simp [runLoop, cycleStep, hc, collectionErrorsCreated]

/-- Witness for C1 at mode `--write` with a raising collect. -/
theorem one_shot_error_propagation_witness :
    ((Mode.write = Mode.write ∨ Mode.write = Mode.dump) ∧
      (⟨true, 0⟩ : CycleInput).collectRaises = true) ∧
    runLoop 60 10 Mode.write [⟨true, 0⟩] = ([], 0, LoopExit.raisedExc) :=
  ⟨⟨Or.inl rfl, rfl⟩,
    (one_shot_error_propagation 60 10 Mode.write ⟨true, 0⟩ [] (Or.inl rfl)).1 rfl⟩

/-- C2: on a stream failure (connection refused, other connect/read error,
or peer EOF), the `prometheus_collectors` GPS loop increments the error
counter, closes and clears the socket, sleeps one second and retries
without raising; the `rf_collectors` GPS loop instead evaluates the
undefined attribute `collection_errors` and the resulting `AttributeError`
escapes the loop without incrementing, closing, clearing, or sleeping. -/
theorem rf_gps_stream_failure_raises :
    rfGpsIter StreamEvent.connRefused = ⟨0, false, false, none, true⟩ ∧
    rfGpsIter StreamEvent.connError = ⟨0, false, false, none, true⟩ ∧
    rfGpsIter StreamEvent.eofRead = ⟨0, false, false, none, true⟩ ∧
    promGpsIter StreamEvent.connRefused = ⟨1, true, true, some 1, false⟩ ∧
    promGpsIter StreamEvent.connError = ⟨1, true, true, some 1, false⟩ ∧
    promGpsIter StreamEvent.eofRead = ⟨1, true, true, some 1, false⟩ := by
  decide

/-- C3 counterexample: in `--prom-daemon` mode a raising cycle does not
increment the collection-errors counter (the instrument is only created
under `--http-daemon`, so `self.collection_errors` is `None` and the
guarded increment is skipped). -/
theorem prom_daemon_error_not_counted :
    (cycleStep 60 10 Mode.promDaemon ⟨true, 0⟩).errInc = 0 ∧
    ¬((cycleStep 60 10 Mode.promDaemon ⟨true, 0⟩).errInc = 1) := by
  decide

/-- C3 (amended): a cycle in which `collect_metrics` raises increments the
collection-errors counter by exactly one in `--http-daemon` mode, and by
nothing in `--prom-daemon` mode, where the instrument is never created. -/
theorem daemon_error_counter_increment (interval randomize : ℚ) (c : CycleInput)
    (hc : c.collectRaises = true) :
    (cycleStep interval randomize Mode.httpDaemon c).errInc = 1 ∧
    (cycleStep interval randomize Mode.promDaemon c).errInc = 0 := by
  refine ⟨?_, ?_⟩ <;> simp [cycleStep, hc, collectionErrorsCreated]

/-- Witness for the amended C3 at a raising cycle. -/
theorem daemon_error_counter_increment_witness :
    (⟨true, 0⟩ : CycleInput).collectRaises = true ∧
    (cycleStep 60 10 Mode.httpDaemon ⟨true, 0⟩).errInc = 1 :=
  ⟨rfl, (daemon_error_counter_increment 60 10 ⟨true, 0⟩ rfl).1⟩

/-- C4: on the first cycle (`full_check_complete` still false) every
configured host is visited; on later cycles each host is visited iff its
independent uniform draw is below `interval / spread_interval`, and the
code's `1.0 / (spread_interval / interval)` equals that ratio; the full
pass marks `full_check_complete`. -/
theorem spread_sampler_selection (spread_interval interval : ℚ)
    (pairs : List (SslHost × ℚ))
    (hs : spread_interval ≠ 0) (hi : interval ≠ 0) :
    cycleHosts false spread_interval interval pairs = pairs.map Prod.fst ∧
    chance spread_interval interval = interval / spread_interval ∧
    cycleHosts true spread_interval interval pairs =
      pairs.filterMap
        (fun p => if p.2 < interval / spread_interval then some p.1 else none) ∧
    nextFullCheckComplete false = true := by
  have hch : chance spread_interval interval = interval / spread_interval := by
    unfold chance
    rw [one_div_div]
  refine ⟨by simp [cycleHosts], hch, ?_, rfl⟩
  simp only [cycleHosts, spreadSelect, hch, if_true]

/-- Witness for C4 at the defaults `spread_interval = 14400`,
`interval = 60`, with one host drawn at 0 (selected: 0 < 60/14400). -/
theorem spread_sampler_selection_witness :
    ((14400 : ℚ) ≠ 0 ∧ (60 : ℚ) ≠ 0) ∧
    chance 14400 60 = 60 / 14400 :=
  ⟨⟨by decide, by decide⟩,
    (spread_sampler_selection 14400 60 [(⟨"www.example.com", none⟩, 0)]
      (by decide) (by decide)).2.1⟩

/-- C5: a target whose (hostname, effective port) is not among the cycle's
visited hosts keeps every previously recorded time series value unchanged
in the registry the cycle publishes; and a failed visit of a host sets
exactly the `retrieval_success_boolean` series of that host's base labels
to 0, leaving every other time series untouched. -/
theorem spread_sampler_publish_frame (skip_labels : List String)
    (visits : List (SslHost × VisitResult)) (hn : String) (p : Nat)
    (hv : ∀ pr ∈ visits, ¬(pr.1.hostname = hn ∧ portOf pr.1 = p)) :
    (∀ (reg : SslRegistry) (name : String) (ls : SslLabels),
      ls.server_hostname = hn → ls.server_port = p →
      runSslCycle skip_labels reg visits (name, ls) = reg (name, ls)) ∧
    (∀ (reg : SslRegistry) (h : SslHost) (k : SslMetricKey),
      processHost skip_labels reg h VisitResult.failed k =
        if k = ("retrieval_success_boolean", baseLabels h) then some 0 else reg k) := by
  refine ⟨runSslCycle_frame skip_labels visits hn p hv, ?_⟩
  intro reg h k
  rfl

/-- Witness for C5: one failed visit of `a.example:443`, target
`b.example:443` unvisited. -/
theorem spread_sampler_publish_frame_witness :
    (∀ pr ∈ [((⟨"a.example", some 443⟩ : SslHost), VisitResult.failed)],
      ¬(pr.1.hostname = "b.example" ∧ portOf pr.1 = 443)) ∧
    (∀ (reg : SslRegistry) (name : String) (ls : SslLabels),
      ls.server_hostname = "b.example" → ls.server_port = 443 →
      runSslCycle [] reg [(⟨"a.example", some 443⟩, VisitResult.failed)] (name, ls) =
        reg (name, ls)) :=
  ⟨by decide,
    (spread_sampler_publish_frame [] [(⟨"a.example", some 443⟩, VisitResult.failed)]
      "b.example" 443 (by decide)).1⟩

/-- C6: in the daemon modes a raising `collect_metrics` leaves the loop
running (no raise, no return): the cycle still reaches the publish step
(in `--prom-daemon` the .prom file is written that same cycle), and the
loop proceeds with the remaining cycles. -/
theorem daemon_error_cycle_continues (interval randomize : ℚ) (c : CycleInput)
    (rest : List CycleInput) (hc : c.collectRaises = true) :
    ((cycleStep interval randomize Mode.promDaemon c).exit = none ∧
      Event.wroteProm ∈ (cycleStep interval randomize Mode.promDaemon c).events) ∧
    (cycleStep interval randomize Mode.httpDaemon c).exit = none ∧
    (∀ m, m = Mode.httpDaemon ∨ m = Mode.promDaemon →
      runLoop interval randomize m (c :: rest) =
        ((cycleStep interval randomize m c).events ++ (runLoop interval randomize m rest).1,
          (cycleStep interval randomize m c).errInc + (runLoop interval randomize m rest).2.1,
          (runLoop interval randomize m rest).2.2)) := by
  refine ⟨⟨?_, ?_⟩, ?_, ?_⟩
  · simp [cycleStep, hc]
  · simp [cycleStep, hc]
  · simp [cycleStep, hc]
  · intro m hm
    rcases hm with h | h <;> subst h <;> simp [runLoop, cycleStep, hc]

/-- Witness for C6 at a raising cycle in `--prom-daemon` mode. -/
theorem daemon_error_cycle_continues_witness :
    (⟨true, 0⟩ : CycleInput).collectRaises = true ∧
    (cycleStep 60 10 Mode.promDaemon ⟨true, 0⟩).exit = none :=
  ⟨rfl, (daemon_error_cycle_continues 60 10 ⟨true, 0⟩ [] rfl).1.1⟩

/-- C7: once the instrument for `key` exists (created on the first call
with label names `sorted(labels.keys())`), every later call passes the
instrument exactly the tuple `str(labels.get(k, ""))` for each declared
key `k` in sorted creation order — a missing declared key becomes the
empty string and an undeclared key is ignored — and leaves the cache
unchanged. -/
theorem metric_label_coercion (key : String) (labels0 labels : List (String × PyVal)) :
    (metricCall (metricCall [] key labels0).1 key labels).1 = (metricCall [] key labels0).1 ∧
    (metricCall (metricCall [] key labels0).1 key labels).2 =
      (sortStrings (labels0.map Prod.fst)).map
        (fun n => pyStr ((dictGet labels n).getD (PyVal.str ""))) := by
  constructor <;> simp [metricCall, labelValues]

/-- C8: every inter-cycle sleep lies in the closed interval
`[interval * (1 - randomize/100), interval * (1 + randomize/100)]`; with
interval 100 and randomize 10 it lies in `[90, 110]`, and randomize 0
gives a sleep of exactly `interval`. -/
theorem jittered_sleep_bounds (interval randomize u : ℚ)
    (hu0 : 0 ≤ u) (hu1 : u ≤ 1) (hi : 0 ≤ interval) (hr : 0 ≤ randomize) :
    interval * (1 - randomize / 100) ≤ sleepFor interval randomize u ∧
    sleepFor interval randomize u ≤ interval * (1 + randomize / 100) ∧
    sleepFor interval 0 u = interval ∧
    (interval = 100 → randomize = 10 →
      90 ≤ sleepFor interval randomize u ∧ sleepFor interval randomize u ≤ 110) := by
  have hlow : interval * (1 - randomize / 100) ≤ sleepFor interval randomize u := by
    unfold sleepFor uniformDraw
    nlinarith [mul_nonneg (mul_nonneg hi hr) hu0]
  have hhigh : sleepFor interval randomize u ≤ interval * (1 + randomize / 100) := by
    unfold sleepFor uniformDraw
    nlinarith [mul_nonneg (mul_nonneg hi hr) (sub_nonneg.mpr hu1),
      mul_nonneg (mul_nonneg hi hr) hu0]
  refine ⟨hlow, hhigh, ?_, ?_⟩
  · unfold sleepFor uniformDraw
    ring
  · intro h1 h2
    subst h1
    subst h2
    constructor
    · have h90 : (100 : ℚ) * (1 - 10 / 100) = 90 := by norm_num
      linarith [hlow]
    · have h110 : (100 : ℚ) * (1 + 10 / 100) = 110 := by norm_num
      linarith [hhigh]

/-- Witness for C8 at interval 100, randomize 10, draw 0. -/
theorem jittered_sleep_bounds_witness :
    ((0 : ℚ) ≤ 0 ∧ (0 : ℚ) ≤ 1 ∧ (0 : ℚ) ≤ 100 ∧ (0 : ℚ) ≤ 10) ∧
    (100 : ℚ) * (1 - 10 / 100) ≤ sleepFor 100 10 0 :=
  ⟨⟨by decide, by decide, by decide, by decide⟩,
    (jittered_sleep_bounds 100 10 0 (by decide) (by decide) (by decide) (by decide)).1⟩

/-- C9 counterexample: the upstream field `tempf` is mapped by the
ambientweather collector to the metric `temperature_f` (not
`temperature_degrees_celsius`) and its value 72.0 is published unchanged,
not converted to Celsius. -/
theorem ambientweather_tempf_cex :
    parse_metrics [("tempf", 72)] = [("temperature_f", "outdoor", 72)] ∧
    (∀ e ∈ parse_metrics [("tempf", 72)], e.1 ≠ "temperature_degrees_celsius") ∧
    (72 : ℚ) ≠ (72 - 32) / (9 / 5 : ℚ) := by
  refine ⟨by decide, by decide, by norm_num⟩

/-- C9 (amended): the ambientweather collector maps `tempf` to
`temperature_f` with sensor label `outdoor` and publishes the upstream
value unchanged; the Fahrenheit-to-Celsius conversion lives in the things
collector, whose `temperature` attribute is published as
`temperature_degrees_celsius` with value `(v - 32) / 1.8` when the hub is
configured Fahrenheit, so 72.0 yields `200/9 = 22.22...`. -/
theorem tempf_and_things_temperature_mapping :
    parse_metrics [("tempf", 72)] = [("temperature_f", "outdoor", 72)] ∧
    processThingNumeric true [("temperature", 72)] =
      [("temperature_degrees_celsius", (72 - 32) / (9 / 5 : ℚ))] ∧
    ((72 : ℚ) - 32) / (9 / 5 : ℚ) = 200 / 9 := by
  refine ⟨by decide, rfl, by norm_num⟩

/-- C10: the GPS collector's `main_loop` raises
`RuntimeError("Only --http-daemon is supported here")` for every mode
other than `--http-daemon`, before consuming any stream data. -/
theorem gps_main_loop_http_only (m : Mode) (evs : List StreamEvent)
    (hm : m ≠ Mode.httpDaemon) :
    gpsMainLoop m evs = Except.error "Only --http-daemon is supported here" := by
  simp [gpsMainLoop, hm]

/-- Witness for C10 at `--prom-daemon` with a pending stream event. -/
theorem gps_main_loop_http_only_witness :
    (Mode.promDaemon ≠ Mode.httpDaemon) ∧
    gpsMainLoop Mode.promDaemon [StreamEvent.connRefused] =
      Except.error "Only --http-daemon is supported here" :=
  ⟨by decide,
    gps_main_loop_http_only Mode.promDaemon [StreamEvent.connRefused] (by decide)⟩

end PromCollectors
